import Mathlib

/-!
Verification development for a thin protocol adapter exposing a feed-reading
REST API as string-returning tools (sources: `server.py`, `client.py`,
`models.py`, `constants.py`).

The embedding is shallow: Python dicts deserialized from the upstream API are
modelled as Lean structures whose `Option` fields record key presence (the
payload shapes the code assumes; string-typed fields hold `String`), Python
exceptions become an explicit `PyExn` type, and each tool entry point becomes a
total function from its validated parameters and the outcome of its single
client call to the returned string.  Python string slicing, `len`, and
`str.join` operate on characters, so they are modelled on `String.data`
(lists of characters).
-/

/-! ## Python string primitives -/

/-- Python slice `s[:n]` (by characters). -/
def pyTake (s : String) (n : Nat) : String :=
  String.mk (s.data.take n)

/-- Python slice `s[n:]` (by characters). -/
def pyDrop (s : String) (n : Nat) : String :=
  String.mk (s.data.drop n)

/-- Python `sep.join(xs)`. -/
def pyJoin (sep : String) : List String → String
  | [] => ""
  | x :: xs => xs.foldl (fun acc y => acc ++ sep ++ y) x

/-- Python `sub in s` (substring containment, `sub` nonempty): `s.split(sub)`
has more than one piece exactly when `sub` occurs in `s`. -/
def pyContains (s : String) (sub : String) : Bool :=
  1 < (s.splitOn sub).length

theorem pyTake_length (s : String) (n : Nat) :
    (pyTake s n).length = min n s.length := by
  show (s.data.take n).length = min n s.data.length
  exact List.length_take n s.data

theorem pyJoin_append_singleton (sep y : String) (l : List String) (h : l ≠ []) :
    pyJoin sep (l ++ [y]) = pyJoin sep l ++ sep ++ y := by
  cases l with
  | nil => exact absurd rfl h
  | cons x xs => simp [pyJoin, List.foldl_append]

/-! ## Exceptions and the error formatter (`server.py::_handle_error`) -/

/-- The exception values the adapter can observe: `FeedlyError` raised by the
client or `get_client`, `httpx.TimeoutException`, `httpx.HTTPStatusError`
(from `raise_for_status`), Python `IndexError` (reachable in entry formatting
when `alternate` is present but empty), and any other exception recorded as
its type name plus message. -/
inductive PyExn where
  | feedlyError (message : String) (statusCode : Option Int)
  | timeoutException
  | httpStatusError (statusCode : Int) (text : String)
  | indexError (message : String)
  | otherError (typeName : String) (message : String)
deriving DecidableEq

/-- `server.py::_handle_error`: consistent error formatting. -/
def handleError : PyExn → String
  | PyExn.feedlyError msg _ => "Error: " ++ msg
  | PyExn.timeoutException => "Error: Request timed out. Try again."
  | PyExn.httpStatusError code text => "Error: HTTP " ++ toString code ++ ": " ++ text
  | PyExn.indexError msg => "Error: IndexError: " ++ msg
  | PyExn.otherError ty msg => "Error: " ++ ty ++ ": " ++ msg

/-! ## Output cap (`constants.py`, `server.py::_truncate_response`) -/

def CHARACTER_LIMIT : Nat := 25000

/-- The literal notice appended by `_truncate_response`. -/
def truncationNotice : String := "\n\n... [Response truncated at 25000 characters]"

/-- `server.py::_truncate_response`. -/
def truncateResponse (content : String) : String :=
  if content.length ≤ CHARACTER_LIMIT then content
  else pyTake content (CHARACTER_LIMIT - 50) ++ truncationNotice

/-! ## Timestamp rendering (`server.py::_format_timestamp`)

`datetime.fromtimestamp(ms / 1000).strftime("%Y-%m-%d %H:%M")` under a UTC
local time, on the proleptic Gregorian calendar (the civil-from-days
computation below).  `fromtimestamp` has two distinct failure modes: for a
timestamp within the platform `time_t` range whose converted year falls
outside `datetime`'s supported 1..9999 it raises the `ValueError`/`OSError`
that the source catches (rendered "Unknown"), but for a timestamp beyond the
platform `time_t` range it raises `OverflowError`, which
`except (ValueError, OSError)` does not catch.  `formatTimestamp` below is
the caught-path rendering (total); `formatTimestampChecked` is the full model
of `_format_timestamp`, including the uncaught `OverflowError`. -/

/-- Days since 1970-01-01 to civil `(year, month, day)` (proleptic Gregorian). -/
def civilFromDays (z0 : Int) : Int × Int × Int :=
  let z := z0 + 719468
  let era : Int := Int.fdiv z 146097
  let doe : Int := z - era * 146097
  let yoe : Int :=
    Int.fdiv (doe - Int.fdiv doe 1460 + Int.fdiv doe 36524 - Int.fdiv doe 146096) 365
  let y : Int := yoe + era * 400
  let doy : Int := doe - (365 * yoe + Int.fdiv yoe 4 - Int.fdiv yoe 100)
  let mp : Int := Int.fdiv (5 * doy + 2) 153
  let d : Int := doy - Int.fdiv (153 * mp + 2) 5 + 1
  let m : Int := mp + (if mp < 10 then 3 else -9)
  (y + (if m ≤ 2 then 1 else 0), m, d)

/-- Zero-pad to two digits (strftime `%m`, `%d`, `%H`, `%M`). -/
def pad2 (n : Int) : String :=
  if n < 10 then "0" ++ toString n else toString n

/-- Zero-pad to four digits (strftime `%Y`). -/
def pad4 (n : Int) : String :=
  if n < 10 then "000" ++ toString n
  else if n < 100 then "00" ++ toString n
  else if n < 1000 then "0" ++ toString n
  else toString n

/-- `server.py::_format_timestamp` on the caught paths: within the platform
`time_t` range the conversion either succeeds or raises a caught
`ValueError`/`OSError` (year outside 1..9999, rendered "Unknown").  The
formatters below call this total rendering; for a timestamp beyond the
platform `time_t` range the source would instead raise the uncaught
`OverflowError` modelled by `formatTimestampChecked`. -/
def formatTimestamp : Option Int → String
  | none => "Unknown"
  | some ms =>
    let secs := Int.fdiv ms 1000
    let days := Int.fdiv secs 86400
    let sod := secs - days * 86400
    let ymd := civilFromDays days
    if ymd.1 < 1 ∨ 9999 < ymd.1 then "Unknown"
    else
      pad4 ymd.1 ++ "-" ++ pad2 ymd.2.1 ++ "-" ++ pad2 ymd.2.2 ++ " " ++
        pad2 (Int.fdiv sod 3600) ++ ":" ++ pad2 (Int.fdiv (sod - 3600 * Int.fdiv sod 3600) 60)

/-- The `OverflowError` raised by `datetime.fromtimestamp` when the timestamp
lies outside the platform `time_t` range; not a `ValueError` or `OSError`, so
the source's except clause does not catch it. -/
def overflowError : PyExn :=
  PyExn.otherError "OverflowError" "timestamp out of range for platform time_t"

/-- Largest 64-bit platform `time_t` value (seconds). -/
def TIME_T_MAX : Int := 9223372036854775807

/-- Smallest 64-bit platform `time_t` value (seconds). -/
def TIME_T_MIN : Int := -9223372036854775808

/-- Full model of `server.py::_format_timestamp`: for seconds beyond the
platform `time_t` range `fromtimestamp` raises `OverflowError`, which the
except clause does not catch, so the exception escapes the function; within
the range the function returns as `formatTimestamp`. -/
def formatTimestampChecked : Option Int → Except PyExn String
  | none => Except.ok "Unknown"
  | some ms =>
    let secs := Int.fdiv ms 1000
    if secs < TIME_T_MIN ∨ TIME_T_MAX < secs then Except.error overflowError
    else Except.ok (formatTimestamp (some ms))

/-! ## Free-text truncation (`server.py::_truncate_text`) -/

/-- `server.py::_truncate_text`. -/
def truncateText (text : Option String) (maxLength : Nat := 300) : String :=
  match text with
  | none => ""
  | some t => if t.length ≤ maxLength then t else pyTake t (maxLength - 3) ++ "..."

/-! ## JSON values

Tool outputs in `response_format="json"` are produced by `json.dumps`; the
claims about them are settled at the level of the dumped value (serialization
followed by parsing is the identity on values, so "parsing the returned string
and reading field k" is `jsonLookup k` on the dumped value). -/

inductive Json where
  | null
  | bool (b : Bool)
  | num (n : Int)
  | str (s : String)
  | arr (elems : List Json)
  | obj (fields : List (String × Json))

/-- Reading field `k` of a parsed JSON value; `none` when the value is not an
object or lacks the key. -/
def jsonLookup (k : String) : Json → Option Json
  | Json.obj fields => fields.lookup k
  | _ => none

mutual

/-- `json.dumps` (single-line model; the `indent=2` pretty-printing of the
source changes whitespace only, which no claim depends on). -/
def Json.dumps : Json → String
  | Json.null => "null"
  | Json.bool b => if b then "true" else "false"
  | Json.num n => toString n
  | Json.str s => "\"" ++ s ++ "\""
  | Json.arr xs => "[" ++ Json.dumpsArr xs ++ "]"
  | Json.obj kvs => "\x7b" ++ Json.dumpsObj kvs ++ "\x7d"

def Json.dumpsArr : List Json → String
  | [] => ""
  | [x] => Json.dumps x
  | x :: xs => Json.dumps x ++ ", " ++ Json.dumpsArr xs

def Json.dumpsObj : List (String × Json) → String
  | [] => ""
  | [(k, v)] => "\"" ++ k ++ "\": " ++ Json.dumps v
  | (k, v) :: kvs => "\"" ++ k ++ "\": " ++ Json.dumps v ++ ", " ++ Json.dumpsObj kvs

end

/-- `dict.get(k, d)` for a string-valued field of a raw payload object. -/
def Json.getStrD (j : Json) (k : String) (d : String) : String :=
  match jsonLookup k j with
  | some (Json.str s) => s
  | _ => d

/-- `dict.get(k, [])` for a list-valued field of a raw payload object. -/
def Json.getArrD (j : Json) (k : String) : List Json :=
  match jsonLookup k j with
  | some (Json.arr l) => l
  | _ => []

/-! ## Entries (articles) and their rendering -/

/-- One element of an entry's `alternate` list; `href` records key presence. -/
structure Link where
  href : Option String
deriving DecidableEq

/-- The dict under an entry's `content` or `summary` key. -/
structure ContentBody where
  content : Option String
deriving DecidableEq

/-- An entry (article) record as deserialized from the upstream API; every
`Option` field is `none` exactly when the corresponding key is absent. -/
structure Entry where
  id : Option String
  title : Option String
  author : Option String
  published : Option Int
  alternate : Option (List Link)
  canonicalUrl : Option String
  unread : Option Bool
  fullContent : Option String
  content : Option ContentBody
  summary : Option ContentBody
deriving DecidableEq

/-- The body text carried by a `content`/`summary` dict when it is present and
truthy (Python `entry["content"].get("content")` used as a condition treats a
missing key, `None`, and the empty string alike as unavailable). -/
def ContentBody.truthyText : Option ContentBody → Option String
  | some b =>
    match b.content with
    | some c => if c = "" then none else some c
    | none => none
  | none => none

/-- `server.py::_get_article_content`. -/
def getArticleContent (entry : Entry) : String :=
  match entry.fullContent with
  | some full => full
  | none =>
    match ContentBody.truthyText entry.content with
    | some c => c
    | none =>
      match ContentBody.truthyText entry.summary with
      | some s => s
      | none => ""

/-- `entry.get("alternate", [{}])[0].get("href", entry.get("canonicalUrl", ""))`:
a missing `alternate` key defaults to `[{}]` whose only element has no `href`;
an `alternate` key holding the empty list makes `[0]` raise `IndexError`. -/
def entryUrl (entry : Entry) : Except PyExn String :=
  match entry.alternate with
  | none => Except.ok (entry.canonicalUrl.getD "")
  | some [] => Except.error (PyExn.indexError "list index out of range")
  | some (l :: _) => Except.ok (l.href.getD (entry.canonicalUrl.getD ""))

/-- The header lines of `server.py::_format_entry_markdown` (everything before
the content/summary line): title, author/published/unread line, ID line, and
the URL line when the url is truthy. -/
def entryHeaderLines (entry : Entry) (url : String) : List String :=
  ["### " ++ entry.title.getD "Untitled",
   "**Author:** " ++ entry.author.getD "Unknown author" ++
     " | **Published:** " ++ formatTimestamp entry.published ++
     " | **Unread:** " ++ (if entry.unread.getD false then "Yes" else "No"),
   "**ID:** `" ++ entry.id.getD "" ++ "`"] ++
    (if url = "" then [] else ["**URL:** [" ++ url ++ "](" ++ url ++ ")"])

/-- `server.py::_format_entry_markdown`. -/
def formatEntryMarkdown (entry : Entry) (includeContent : Bool := false) :
    Except PyExn String :=
  match entryUrl entry with
  | Except.error e => Except.error e
  | Except.ok url =>
    let content := getArticleContent entry
    let summary := truncateText (some content) 300
    let lines := entryHeaderLines entry url ++
      (if includeContent ∧ content ≠ "" then ["\n**Content:**\n" ++ content]
       else if summary ≠ "" then ["\n**Summary:** " ++ summary]
       else [])
    Except.ok (pyJoin "\n" lines)

/-- The per-entry blocks of `_format_entries_markdown`, rendered left to
right; the first exception raised by an entry propagates (the generator
expression inside `join`). -/
def mapFormatEntries (includeContent : Bool) : List Entry → Except PyExn (List String)
  | [] => Except.ok []
  | e :: es =>
    match formatEntryMarkdown e includeContent with
    | Except.error ex => Except.error ex
    | Except.ok block =>
      match mapFormatEntries includeContent es with
      | Except.error ex => Except.error ex
      | Except.ok rest => Except.ok (block :: rest)

/-- `server.py::_format_entries_markdown`. -/
def formatEntriesMarkdown (entries : List Entry) (includeContent : Bool := false) :
    Except PyExn String :=
  if entries = [] then
    Except.ok "No articles found."
  else
    match mapFormatEntries includeContent entries with
    | Except.error ex => Except.error ex
    | Except.ok blocks => Except.ok (pyJoin "\n\n---\n\n" blocks)

/-- Re-serialization of an entry for JSON-mode outputs: each present field is
dumped back under its original key. -/
def entryToJson (e : Entry) : Json :=
  Json.obj (
    (match e.id with | some v => [("id", Json.str v)] | none => []) ++
    (match e.title with | some v => [("title", Json.str v)] | none => []) ++
    (match e.author with | some v => [("author", Json.str v)] | none => []) ++
    (match e.published with | some v => [("published", Json.num v)] | none => []) ++
    (match e.alternate with
     | some ls =>
       [("alternate", Json.arr (ls.map (fun l =>
         Json.obj (match l.href with | some h => [("href", Json.str h)] | none => []))))]
     | none => []) ++
    (match e.canonicalUrl with | some v => [("canonicalUrl", Json.str v)] | none => []) ++
    (match e.unread with | some v => [("unread", Json.bool v)] | none => []) ++
    (match e.fullContent with | some v => [("fullContent", Json.str v)] | none => []) ++
    (match e.content with
     | some b =>
       [("content", Json.obj (match b.content with
         | some c => [("content", Json.str c)] | none => []))]
     | none => []) ++
    (match e.summary with
     | some b =>
       [("summary", Json.obj (match b.content with
         | some c => [("content", Json.str c)] | none => []))]
     | none => []))

/-! ## Stream contents (`server.py::_format_stream_contents`) -/

/-- The two legal values of the `response_format` field (`models.py`). -/
inductive ResponseFormat where
  | markdown
  | json
deriving DecidableEq

/-- The stream-contents payload: `data.get("items", [])` and
`data.get("continuation")`. -/
structure StreamData where
  items : List Entry
  continuation : Option String
deriving DecidableEq

/-- The value dumped by the JSON branch of `_format_stream_contents`:
`{"items": items, "count": len(items)}`, plus `continuation` when truthy. -/
def streamContentsJson (items : List Entry) (continuation : Option String) : Json :=
  Json.obj (
    [("items", Json.arr (items.map entryToJson)),
     ("count", Json.num (items.length : Int))] ++
    (match continuation with
     | some c => if c = "" then [] else [("continuation", Json.str c)]
     | none => []))

/-- `server.py::_format_stream_contents`. -/
def formatStreamContents (data : StreamData) (fmt : ResponseFormat) :
    Except PyExn String :=
  match fmt with
  | ResponseFormat.json =>
    Except.ok (Json.dumps (streamContentsJson data.items data.continuation))
  | ResponseFormat.markdown => do
    let body ← formatEntriesMarkdown data.items false
    let lines := ["## Articles (" ++ toString data.items.length ++ " found)\n", body] ++
      (match data.continuation with
       | some c =>
         if c = "" then []
         else ["\n\n---\n**More articles available.** Use continuation token: `" ++ c ++ "`"]
       | none => [])
    pure (pyJoin "\n" lines)

/-! ## Listing formatters (`server.py`) -/

/-- `server.py::_format_profile_markdown` (raw payload dict, string-typed
fields read with `dict.get` defaults). -/
def formatProfileMarkdown (profile : Json) : String :=
  "## Feedly Profile\n\n" ++
  "**User ID:** `" ++ profile.getStrD "id" "Unknown" ++ "`\n" ++
  "**Email:** " ++ profile.getStrD "email" "Not available" ++ "\n" ++
  "**Name:** " ++ profile.getStrD "fullName" (profile.getStrD "givenName" "Not available") ++ "\n" ++
  "**Locale:** " ++ profile.getStrD "locale" "Not available" ++ "\n" ++
  "**Login:** " ++ profile.getStrD "login" "Not available" ++ "\n"

/-- The lines contributed by one subscription in
`server.py::_format_subscriptions_markdown`. -/
def subscriptionLines (sub : Json) : List String :=
  let title := sub.getStrD "title" "Untitled"
  let feedId := sub.getStrD "id" ""
  let website := sub.getStrD "website" ""
  let categories := (sub.getArrD "categories").map (fun c => c.getStrD "label" "")
  let catStr := if categories = [] then "Uncategorized" else pyJoin ", " categories
  ["### " ++ title, "**Feed ID:** `" ++ feedId ++ "`"] ++
    (if website = "" then [] else ["**Website:** [" ++ website ++ "](" ++ website ++ ")"]) ++
    ["**Categories:** " ++ catStr, ""]

/-- `server.py::_format_subscriptions_markdown`. -/
def formatSubscriptionsMarkdown (subscriptions : List Json) : String :=
  if subscriptions.isEmpty then "No subscriptions found."
  else
    pyJoin "\n" (("## Subscriptions (" ++ toString subscriptions.length ++ " feeds)\n") ::
      subscriptions.flatMap subscriptionLines)

/-- `server.py::_format_categories_markdown`. -/
def formatCategoriesMarkdown (categories : List Json) : String :=
  if categories.isEmpty then "No categories found."
  else
    pyJoin "\n" (("## Categories (" ++ toString categories.length ++ " found)\n") ::
      categories.flatMap (fun cat =>
        ["- **" ++ cat.getStrD "label" "Unlabeled" ++ "**",
         "  - ID: `" ++ cat.getStrD "id" "" ++ "`"]))

/-- `server.py::_format_tags_markdown`. -/
def formatTagsMarkdown (tags : List Json) : String :=
  if tags.isEmpty then "No tags found."
  else
    pyJoin "\n" (("## Tags (" ++ toString tags.length ++ " found)\n") ::
      tags.flatMap (fun tag =>
        let label :=
          match jsonLookup "label" tag with
          | some (Json.str s) => s
          | _ => (((tag.getStrD "id" "").splitOn "/").getLastD "")
        ["- **" ++ label ++ "**", "  - ID: `" ++ tag.getStrD "id" "" ++ "`"]))

/-! ## Unread counts (`server.py::_format_unread_counts_markdown`) -/

/-- One unread-count record; `Option` fields record key presence as read by
`item.get("id", "")`, `item.get("count", 0)`, `item.get("updated")`. -/
structure UnreadCount where
  id : Option String
  count : Option Int
  updated : Option Int
deriving DecidableEq

/-- The payload dict: `data.get("unreadcounts", [])`. -/
structure UnreadData where
  unreadcounts : List UnreadCount
deriving DecidableEq

/-- The sort key `lambda x: x.get("count", 0)`. -/
def UnreadCount.key (x : UnreadCount) : Int :=
  x.count.getD 0

/-- Insert `x` after every element with a strictly greater key (so before all
elements with an equal or smaller key). -/
def insertByCountDesc (x : UnreadCount) : List UnreadCount → List UnreadCount
  | [] => [x]
  | y :: ys =>
    if x.key < y.key then y :: insertByCountDesc x ys else x :: y :: ys

/-- `sorted(counts, key=lambda x: x.get("count", 0), reverse=True)`: the stable
sort by count descending.  Insertion sort is extensionally the unique stable
descending sort, which is what Python's `sorted` computes. -/
def sortByCountDesc : List UnreadCount → List UnreadCount
  | [] => []
  | x :: xs => insertByCountDesc x (sortByCountDesc xs)

/-- The display name and type label extracted from a stream ID by literal
substring/prefix inspection. -/
def streamDisplay (streamId : String) : String × String :=
  if pyContains streamId "/category/" then
    ((streamId.splitOn "/category/").getLastD "", "Category")
  else if pyContains streamId "/tag/" then
    ((streamId.splitOn "/tag/").getLastD "", "Tag")
  else if streamId.startsWith "feed/" then
    (pyDrop streamId 5, "Feed")
  else
    (streamId, "Stream")

/-- The two lines contributed by one unread-count record. -/
def unreadCountLines (item : UnreadCount) : List String :=
  let streamId := item.id.getD ""
  let display := streamDisplay streamId
  ["- **" ++ display.1 ++ "** (" ++ display.2 ++ "): " ++ toString (item.count.getD 0) ++
     " unread (updated: " ++ formatTimestamp item.updated ++ ")",
   "  - ID: `" ++ streamId ++ "`"]

/-- `server.py::_format_unread_counts_markdown`. -/
def formatUnreadCountsMarkdown (data : UnreadData) : String :=
  if data.unreadcounts = [] then "No unread counts available."
  else
    pyJoin "\n" ("## Unread Counts\n" ::
      (sortByCountDesc data.unreadcounts).flatMap unreadCountLines)

/-! ## Transport client (`client.py::FeedlyClient._request`) -/

/-- The status-code-to-exception mapping of `_request`: the four special cases
checked in order before `raise_for_status`, which raises `HTTPStatusError` for
any remaining 4xx/5xx status. -/
def statusToError (status : Int) (bodyText : String) : Option PyExn :=
  if status = 401 then
    some (PyExn.feedlyError "Authentication failed. Check FEEDLY_ACCESS_TOKEN." (some 401))
  else if status = 403 then
    some (PyExn.feedlyError "Access forbidden. Check your Feedly plan." (some 403))
  else if status = 404 then
    some (PyExn.feedlyError "Resource not found. Check the ID." (some 404))
  else if status = 429 then
    some (PyExn.feedlyError "Rate limit exceeded. Wait before retrying." (some 429))
  else if 400 ≤ status then
    some (PyExn.httpStatusError status bodyText)
  else
    none

/-- The outcome of `_request` for the write endpoints, whose payload the tools
ignore. -/
def unitOutcome (status : Int) (bodyText : String) : Except PyExn Unit :=
  match statusToError status bodyText with
  | some e => Except.error e
  | none => Except.ok ()

/-- The exception `_request` raises on an upstream 401. -/
def authFailedExn : PyExn :=
  PyExn.feedlyError "Authentication failed. Check FEEDLY_ACCESS_TOKEN." (some 401)

/-- The exception `_request` raises on an upstream 429. -/
def rateLimitExn : PyExn :=
  PyExn.feedlyError "Rate limit exceeded. Wait before retrying." (some 429)

/-! ## Input validation (`models.py`)

`MarkAsReadInput.entry_ids`, `KeepUnreadInput.entry_ids`, and
`GetEntriesInput.entry_ids` all carry `min_length=1, max_length=1000`.  The
tool-calling framework validates the input model before the tool body (which
performs the single outbound call) runs, so a rejected input makes no network
call; the `...NetworkCalls` functions record how many outbound calls an
invocation with the given ID list performs. -/

/-- The `min_length=1, max_length=1000` bound shared by the three
entry-ID-list input models. -/
def validEntryIdList (entryIds : List String) : Bool :=
  1 ≤ entryIds.length && entryIds.length ≤ 1000

/-- `MarkAsReadInput` validation. -/
def markAsReadInputValid (entryIds : List String) : Bool := validEntryIdList entryIds

/-- `KeepUnreadInput` validation. -/
def keepUnreadInputValid (entryIds : List String) : Bool := validEntryIdList entryIds

/-- `GetEntriesInput` validation. -/
def getEntriesInputValid (entryIds : List String) : Bool := validEntryIdList entryIds

/-- Outbound calls made by a `feedly_mark_as_read` invocation. -/
def markAsReadNetworkCalls (entryIds : List String) : Nat :=
  if markAsReadInputValid entryIds then 1 else 0

/-- Outbound calls made by a `feedly_keep_unread` invocation. -/
def keepUnreadNetworkCalls (entryIds : List String) : Nat :=
  if keepUnreadInputValid entryIds then 1 else 0

/-- Outbound calls made by a `feedly_get_entries` invocation. -/
def getEntriesNetworkCalls (entryIds : List String) : Nat :=
  if getEntriesInputValid entryIds then 1 else 0

/-! ## Tool entry points (`server.py`)

Each tool body is `try: <client call>; <format>; return _truncate_response(...)
except Exception as e: return _handle_error(e)`.  A tool is modelled as a total
function from its validated parameters and the outcome of its single client
call (an `Except PyExn` value: `.error e` when `get_client` or the transport
raised `e`) to the returned string; totality is the shallow form of "no
exception escapes the entry point". -/

/-- `server.py::feedly_get_profile`. -/
def feedlyGetProfile (fmt : ResponseFormat) (res : Except PyExn Json) : String :=
  match res with
  | Except.error e => handleError e
  | Except.ok profile =>
    match fmt with
    | ResponseFormat.json => truncateResponse (Json.dumps profile)
    | ResponseFormat.markdown => truncateResponse (formatProfileMarkdown profile)

/-- `server.py::feedly_get_subscriptions`. -/
def feedlyGetSubscriptions (fmt : ResponseFormat) (res : Except PyExn (List Json)) :
    String :=
  match res with
  | Except.error e => handleError e
  | Except.ok subscriptions =>
    match fmt with
    | ResponseFormat.json => truncateResponse (Json.dumps (Json.arr subscriptions))
    | ResponseFormat.markdown => truncateResponse (formatSubscriptionsMarkdown subscriptions)

/-- `server.py::feedly_get_categories`. -/
def feedlyGetCategories (fmt : ResponseFormat) (res : Except PyExn (List Json)) :
    String :=
  match res with
  | Except.error e => handleError e
  | Except.ok categories =>
    match fmt with
    | ResponseFormat.json => truncateResponse (Json.dumps (Json.arr categories))
    | ResponseFormat.markdown => truncateResponse (formatCategoriesMarkdown categories)

/-- `server.py::feedly_get_tags`. -/
def feedlyGetTags (fmt : ResponseFormat) (res : Except PyExn (List Json)) : String :=
  match res with
  | Except.error e => handleError e
  | Except.ok tags =>
    match fmt with
    | ResponseFormat.json => truncateResponse (Json.dumps (Json.arr tags))
    | ResponseFormat.markdown => truncateResponse (formatTagsMarkdown tags)

/-- `server.py::feedly_get_unread_counts`.  The JSON branch dumps the raw
payload (no envelope); it is modelled by the raw `Json` value alongside the
parsed record used by the markdown branch. -/
def feedlyGetUnreadCounts (fmt : ResponseFormat)
    (res : Except PyExn (Json × UnreadData)) : String :=
  match res with
  | Except.error e => handleError e
  | Except.ok counts =>
    match fmt with
    | ResponseFormat.json => truncateResponse (Json.dumps counts.1)
    | ResponseFormat.markdown => truncateResponse (formatUnreadCountsMarkdown counts.2)

/-- `server.py::feedly_get_stream_contents`. -/
def feedlyGetStreamContents (fmt : ResponseFormat) (res : Except PyExn StreamData) :
    String :=
  match res with
  | Except.error e => handleError e
  | Except.ok data =>
    match formatStreamContents data fmt with
    | Except.ok s => truncateResponse s
    | Except.error e => handleError e

/-- `server.py::feedly_get_entry`. -/
def feedlyGetEntry (fmt : ResponseFormat) (res : Except PyExn (List Entry)) : String :=
  match res with
  | Except.error e => handleError e
  | Except.ok entries =>
    match entries with
    | [] => "Error: Article not found."
    | entry :: _ =>
      match fmt with
      | ResponseFormat.json => truncateResponse (Json.dumps (entryToJson entry))
      | ResponseFormat.markdown =>
        match formatEntryMarkdown entry true with
        | Except.ok s => truncateResponse s
        | Except.error e => handleError e

/-- `server.py::feedly_get_entries`. -/
def feedlyGetEntries (fmt : ResponseFormat) (res : Except PyExn (List Entry)) : String :=
  match res with
  | Except.error e => handleError e
  | Except.ok entries =>
    match fmt with
    | ResponseFormat.json => truncateResponse (Json.dumps (Json.arr (entries.map entryToJson)))
    | ResponseFormat.markdown =>
      match formatEntriesMarkdown entries true with
      | Except.ok s => truncateResponse s
      | Except.error e => handleError e

/-- `server.py::feedly_mark_as_read` (body; note the confirmation string is
returned without `_truncate_response`). -/
def feedlyMarkAsRead (entryIds : List String) (net : Except PyExn Unit) : String :=
  match net with
  | Except.error e => handleError e
  | Except.ok _ =>
    "Successfully marked " ++ toString entryIds.length ++ " article(s) as read."

/-- `server.py::feedly_keep_unread` (body). -/
def feedlyKeepUnread (entryIds : List String) (net : Except PyExn Unit) : String :=
  match net with
  | Except.error e => handleError e
  | Except.ok _ =>
    "Successfully kept " ++ toString entryIds.length ++ " article(s) as unread."

/-- `server.py::feedly_mark_feed_as_read` (body; `if params.as_of:` treats a
zero timestamp as falsy). -/
def feedlyMarkFeedAsRead (feedId : String) (asOf : Option Int)
    (net : Except PyExn Unit) : String :=
  match net with
  | Except.error e => handleError e
  | Except.ok _ =>
    let msg := "Successfully marked feed as read: " ++ feedId
    match asOf with
    | some t =>
      if t = 0 then msg
      else msg ++ " (entries before " ++ formatTimestamp (some t) ++ ")"
    | none => msg

/-- `server.py::feedly_mark_category_as_read` (body). -/
def feedlyMarkCategoryAsRead (categoryId : String) (asOf : Option Int)
    (net : Except PyExn Unit) : String :=
  match net with
  | Except.error e => handleError e
  | Except.ok _ =>
    let msg := "Successfully marked category as read: " ++ categoryId
    match asOf with
    | some t =>
      if t = 0 then msg
      else msg ++ " (entries before " ++ formatTimestamp (some t) ++ ")"
    | none => msg

/-! ## Framework dispatch (validation before the tool body) -/

/-- What the invoking runtime receives from a tool invocation: either the
ordinary string returned by the tool body, or a structured error result
produced by the tool-calling framework itself. -/
inductive ToolInvocationResult where
  | reply (s : String)
  | frameworkFault (message : String)
deriving DecidableEq

/-- Whether the invocation result is an ordinary string from the tool body. -/
def ToolInvocationResult.isReply : ToolInvocationResult → Bool
  | ToolInvocationResult.reply _ => true
  | ToolInvocationResult.frameworkFault _ => false

/-- Modelled from the tool-calling framework's dispatch (not part of
`server.py`): the pydantic input model is validated before the tool body runs,
and a validation failure is returned to the invoking runtime as a structured
error result ("Error executing tool ..."), never reaching the body's
try/except, so it is not rendered by `_handle_error`. -/
def markAsReadInvocation (entryIds : List String) (net : Except PyExn Unit) :
    ToolInvocationResult :=
  if markAsReadInputValid entryIds then
    ToolInvocationResult.reply (feedlyMarkAsRead entryIds net)
  else
    ToolInvocationResult.frameworkFault
      "Error executing tool feedly_mark_as_read: input validation error"

/-! ## Claims -/

/-- Counterexample for C5: at 10^22 milliseconds (10^19 seconds, beyond the
64-bit platform `time_t` range) `datetime.fromtimestamp` raises
`OverflowError`, which `except (ValueError, OSError)` does not catch — the
formatter throws instead of rendering "Unknown". -/
theorem timestamp_rendering_c5_counterexample :
    formatTimestampChecked (some 10000000000000000000000) =
      Except.error overflowError := by
  rfl

/-- C5 (amended): within the platform `time_t` range the timestamp formatter
does not throw — a missing timestamp renders "Unknown", a conversion whose
year falls outside 1..9999 (the caught `ValueError`/`OSError`) renders
"Unknown", and 1704067200000 renders "2024-01-01 00:00" (local-time
interpretation, minute precision) — but for a timestamp whose seconds lie
beyond the platform `time_t` range, `fromtimestamp` raises `OverflowError`,
which the except clause does not catch, so the formatter throws. -/
theorem timestamp_rendering_c5 :
    formatTimestampChecked none = Except.ok "Unknown" ∧
    formatTimestampChecked (some 1704067200000) = Except.ok "2024-01-01 00:00" ∧
    (∀ ms : Int,
      ¬(Int.fdiv ms 1000 < TIME_T_MIN ∨ TIME_T_MAX < Int.fdiv ms 1000) →
      ((civilFromDays (Int.fdiv (Int.fdiv ms 1000) 86400)).1 < 1 ∨
        9999 < (civilFromDays (Int.fdiv (Int.fdiv ms 1000) 86400)).1) →
      formatTimestampChecked (some ms) = Except.ok "Unknown") ∧
    (∀ ms : Int,
      (Int.fdiv ms 1000 < TIME_T_MIN ∨ TIME_T_MAX < Int.fdiv ms 1000) →
      formatTimestampChecked (some ms) = Except.error overflowError) := by
  refine ⟨rfl, by rfl, ?_, ?_⟩
  · intro ms hin hyear
    show (if Int.fdiv ms 1000 < TIME_T_MIN ∨ TIME_T_MAX < Int.fdiv ms 1000 then
        Except.error overflowError
      else Except.ok (formatTimestamp (some ms))) = Except.ok "Unknown"
    rw [if_neg hin]
    have hu : formatTimestamp (some ms) = "Unknown" := by
      show (if (civilFromDays (Int.fdiv (Int.fdiv ms 1000) 86400)).1 < 1 ∨
          9999 < (civilFromDays (Int.fdiv (Int.fdiv ms 1000) 86400)).1 then "Unknown"
        else _) = "Unknown"
      rw [if_pos hyear]
    rw [hu]
  · intro ms h
    show (if Int.fdiv ms 1000 < TIME_T_MIN ∨ TIME_T_MAX < Int.fdiv ms 1000 then
        Except.error overflowError
      else Except.ok (formatTimestamp (some ms))) = Except.error overflowError
    rw [if_pos h]

/-- Witness for C5: 10^18 milliseconds is inside the `time_t` range but
converts to a year far beyond 9999, so it renders "Unknown"; 10^22
milliseconds is outside the range and raises the uncaught `OverflowError`. -/
theorem timestamp_rendering_c5_witness :
    (¬(Int.fdiv 1000000000000000000 1000 < TIME_T_MIN ∨
        TIME_T_MAX < Int.fdiv 1000000000000000000 1000)) ∧
    ((civilFromDays (Int.fdiv (Int.fdiv 1000000000000000000 1000) 86400)).1 < 1 ∨
      9999 < (civilFromDays (Int.fdiv (Int.fdiv 1000000000000000000 1000) 86400)).1) ∧
    formatTimestampChecked (some 1000000000000000000) = Except.ok "Unknown" ∧
    (Int.fdiv 10000000000000000000000 1000 < TIME_T_MIN ∨
      TIME_T_MAX < Int.fdiv 10000000000000000000000 1000) ∧
    formatTimestampChecked (some 10000000000000000000000) =
      Except.error overflowError :=
  ⟨by decide, by decide,
    timestamp_rendering_c5.2.2.1 1000000000000000000 (by decide) (by decide),
    by decide,
    timestamp_rendering_c5.2.2.2 10000000000000000000000 (by decide)⟩

/-- C3: exactly one content source is rendered, by first-available precedence
full content > content body > summary body > empty string, where a
content/summary body is available when present and nonempty; lower-precedence
fields are never consulted when a higher-precedence one is available. -/
theorem content_precedence_c3 (e : Entry) :
    (∀ full, e.fullContent = some full → getArticleContent e = full) ∧
    (e.fullContent = none →
      ∀ c, ContentBody.truthyText e.content = some c → getArticleContent e = c) ∧
    (e.fullContent = none → ContentBody.truthyText e.content = none →
      ∀ s, ContentBody.truthyText e.summary = some s → getArticleContent e = s) ∧
    (e.fullContent = none → ContentBody.truthyText e.content = none →
      ContentBody.truthyText e.summary = none → getArticleContent e = "") := by
  refine ⟨?_, ?_, ?_, ?_⟩ <;> intros <;> simp_all [getArticleContent]

/-- Concrete entries, one per content-precedence tier. -/
def entryTier1 : Entry :=
  ⟨none, none, none, none, none, none, none, some "F", some ⟨some "C"⟩, some ⟨some "S"⟩⟩

def entryTier2 : Entry :=
  ⟨none, none, none, none, none, none, none, none, some ⟨some "C"⟩, some ⟨some "S"⟩⟩

def entryTier3 : Entry :=
  ⟨none, none, none, none, none, none, none, none, some ⟨some ""⟩, some ⟨some "S"⟩⟩

def entryTier4 : Entry :=
  ⟨none, none, none, none, none, none, none, none, none, none⟩

/-- Witness for C3: four concrete entries, one per precedence tier; the first
carries all three sources and renders the full content. -/
theorem content_precedence_c3_witness :
    (entryTier1.fullContent = some "F" ∧ getArticleContent entryTier1 = "F") ∧
    getArticleContent entryTier2 = "C" ∧
    getArticleContent entryTier3 = "S" ∧
    getArticleContent entryTier4 = "" := by
  refine ⟨⟨rfl, (content_precedence_c3 entryTier1).1 "F" rfl⟩, ?_, ?_, ?_⟩
  · exact (content_precedence_c3 entryTier2).2.1 rfl "C" rfl
  · exact (content_precedence_c3 entryTier3).2.2.1 rfl (by decide) "S" rfl
  · exact (content_precedence_c3 entryTier4).2.2.2 rfl rfl rfl

/-- C8: an upstream 401 makes the client raise the authentication
`FeedlyError`, and every tool invocation then returns exactly
"Error: Authentication failed. Check FEEDLY_ACCESS_TOKEN."; an upstream 429
likewise makes every tool return exactly
"Error: Rate limit exceeded. Wait before retrying.". -/
theorem upstream_status_strings_c8 (body : String) (fmt : ResponseFormat)
    (entryIds : List String) (feedId categoryId : String) (asOf : Option Int) :
    statusToError 401 body = some authFailedExn ∧
    statusToError 429 body = some rateLimitExn ∧
    unitOutcome 401 body = Except.error authFailedExn ∧
    unitOutcome 429 body = Except.error rateLimitExn ∧
    feedlyGetProfile fmt (Except.error authFailedExn) =
      "Error: Authentication failed. Check FEEDLY_ACCESS_TOKEN." ∧
    feedlyGetSubscriptions fmt (Except.error authFailedExn) =
      "Error: Authentication failed. Check FEEDLY_ACCESS_TOKEN." ∧
    feedlyGetCategories fmt (Except.error authFailedExn) =
      "Error: Authentication failed. Check FEEDLY_ACCESS_TOKEN." ∧
    feedlyGetTags fmt (Except.error authFailedExn) =
      "Error: Authentication failed. Check FEEDLY_ACCESS_TOKEN." ∧
    feedlyGetUnreadCounts fmt (Except.error authFailedExn) =
      "Error: Authentication failed. Check FEEDLY_ACCESS_TOKEN." ∧
    feedlyGetStreamContents fmt (Except.error authFailedExn) =
      "Error: Authentication failed. Check FEEDLY_ACCESS_TOKEN." ∧
    feedlyGetEntry fmt (Except.error authFailedExn) =
      "Error: Authentication failed. Check FEEDLY_ACCESS_TOKEN." ∧
    feedlyGetEntries fmt (Except.error authFailedExn) =
      "Error: Authentication failed. Check FEEDLY_ACCESS_TOKEN." ∧
    feedlyMarkAsRead entryIds (Except.error authFailedExn) =
      "Error: Authentication failed. Check FEEDLY_ACCESS_TOKEN." ∧
    feedlyKeepUnread entryIds (Except.error authFailedExn) =
      "Error: Authentication failed. Check FEEDLY_ACCESS_TOKEN." ∧
    feedlyMarkFeedAsRead feedId asOf (Except.error authFailedExn) =
      "Error: Authentication failed. Check FEEDLY_ACCESS_TOKEN." ∧
    feedlyMarkCategoryAsRead categoryId asOf (Except.error authFailedExn) =
      "Error: Authentication failed. Check FEEDLY_ACCESS_TOKEN." ∧
    feedlyGetProfile fmt (Except.error rateLimitExn) =
      "Error: Rate limit exceeded. Wait before retrying." ∧
    feedlyGetSubscriptions fmt (Except.error rateLimitExn) =
      "Error: Rate limit exceeded. Wait before retrying." ∧
    feedlyGetCategories fmt (Except.error rateLimitExn) =
      "Error: Rate limit exceeded. Wait before retrying." ∧
    feedlyGetTags fmt (Except.error rateLimitExn) =
      "Error: Rate limit exceeded. Wait before retrying." ∧
    feedlyGetUnreadCounts fmt (Except.error rateLimitExn) =
      "Error: Rate limit exceeded. Wait before retrying." ∧
    feedlyGetStreamContents fmt (Except.error rateLimitExn) =
      "Error: Rate limit exceeded. Wait before retrying." ∧
    feedlyGetEntry fmt (Except.error rateLimitExn) =
      "Error: Rate limit exceeded. Wait before retrying." ∧
    feedlyGetEntries fmt (Except.error rateLimitExn) =
      "Error: Rate limit exceeded. Wait before retrying." ∧
    feedlyMarkAsRead entryIds (Except.error rateLimitExn) =
      "Error: Rate limit exceeded. Wait before retrying." ∧
    feedlyKeepUnread entryIds (Except.error rateLimitExn) =
      "Error: Rate limit exceeded. Wait before retrying." ∧
    feedlyMarkFeedAsRead feedId asOf (Except.error rateLimitExn) =
      "Error: Rate limit exceeded. Wait before retrying." ∧
    feedlyMarkCategoryAsRead categoryId asOf (Except.error rateLimitExn) =
      "Error: Rate limit exceeded. Wait before retrying." :=
  ⟨rfl, rfl, rfl, rfl, rfl, rfl, rfl, rfl, rfl, rfl, rfl, rfl, rfl, rfl, rfl, rfl,
    rfl, rfl, rfl, rfl, rfl, rfl, rfl, rfl, rfl, rfl, rfl, rfl⟩

/-- Concrete entry whose `alternate` key holds the empty list, so the entry
formatter raises `IndexError` at `alternate[0]`. -/
def entryEmptyAlt : Entry :=
  ⟨none, none, none, none, some [], none, none, none, none, none⟩

/-- Counterexample for C4: a mark-as-read invocation whose `entry_ids` fails
validation (the empty list) is rejected by the framework before the tool body
runs, and the invoking runtime receives a structured error result — not an
ordinary string, so not a string of the form "Error: <description>" produced
by the dispatcher. -/
theorem dispatcher_error_boundary_c4_counterexample :
    markAsReadInvocation [] (Except.ok ()) =
      ToolInvocationResult.frameworkFault
        "Error executing tool feedly_mark_as_read: input validation error" ∧
    (markAsReadInvocation [] (Except.ok ())).isReply = false :=
  ⟨rfl, rfl⟩

/-- C4 (amended): every exception raised inside a tool body — configuration,
transport, or formatting (the `IndexError` arising while formatting a
successfully fetched entry) — is caught at the dispatcher boundary and
rendered as the `_handle_error` string, which always has the form
"Error: <description>"; the entry points are total functions, so no such
exception propagates to the invoking runtime.  Input-validation failures,
however, are raised before the body runs and surface as a framework error
result, not as the body's "Error: ..." string; a valid input reaches the body
and the runtime receives the body's string. -/
theorem dispatcher_error_boundary_c4 (e : PyExn) (fmt : ResponseFormat)
    (entryIds : List String) (feedId categoryId : String) (asOf : Option Int) :
    (∀ (entry : Entry) (rest : List Entry) (ex : PyExn),
      entryUrl entry = Except.error ex →
      feedlyGetEntry ResponseFormat.markdown (Except.ok (entry :: rest)) =
        handleError ex) ∧
    (∀ (entries : List Entry) (ex : PyExn),
      formatEntriesMarkdown entries true = Except.error ex →
      feedlyGetEntries ResponseFormat.markdown (Except.ok entries) = handleError ex) ∧
    (∀ (data : StreamData) (ex : PyExn),
      formatStreamContents data ResponseFormat.markdown = Except.error ex →
      feedlyGetStreamContents ResponseFormat.markdown (Except.ok data) =
        handleError ex) ∧
    (∀ (ids : List String) (net : Except PyExn Unit),
      markAsReadInputValid ids = true →
      markAsReadInvocation ids net = ToolInvocationResult.reply (feedlyMarkAsRead ids net)) ∧
    feedlyGetProfile fmt (Except.error e) = handleError e ∧
    feedlyGetSubscriptions fmt (Except.error e) = handleError e ∧
    feedlyGetCategories fmt (Except.error e) = handleError e ∧
    feedlyGetTags fmt (Except.error e) = handleError e ∧
    feedlyGetUnreadCounts fmt (Except.error e) = handleError e ∧
    feedlyGetStreamContents fmt (Except.error e) = handleError e ∧
    feedlyGetEntry fmt (Except.error e) = handleError e ∧
    feedlyGetEntries fmt (Except.error e) = handleError e ∧
    feedlyMarkAsRead entryIds (Except.error e) = handleError e ∧
    feedlyKeepUnread entryIds (Except.error e) = handleError e ∧
    feedlyMarkFeedAsRead feedId asOf (Except.error e) = handleError e ∧
    feedlyMarkCategoryAsRead categoryId asOf (Except.error e) = handleError e ∧
    ∃ description, handleError e = "Error: " ++ description := by
  refine ⟨?_, ?_, ?_, ?_, rfl, rfl, rfl, rfl, rfl, rfl, rfl, rfl, rfl, rfl, rfl, rfl, ?_⟩
  · intro entry rest ex h
    simp [feedlyGetEntry, formatEntryMarkdown, h]
  · intro entries ex h
    simp [feedlyGetEntries, h]
  · intro data ex h
    simp [feedlyGetStreamContents, h]
  · intro ids net hv
    simp [markAsReadInvocation, hv]
  cases e with
  | feedlyError msg code => exact ⟨msg, rfl⟩
  | timeoutException => exact ⟨"Request timed out. Try again.", rfl⟩
  | httpStatusError code text =>
    refine ⟨"HTTP " ++ toString code ++ ": " ++ text, ?_⟩
    show (("Error: HTTP " ++ toString code) ++ ": ") ++ text = _
    rw [show ("Error: HTTP " : String) = "Error: " ++ "HTTP " from rfl]
    simp only [String.append_assoc]
  | indexError msg =>
    refine ⟨"IndexError: " ++ msg, ?_⟩
    show "Error: IndexError: " ++ msg = _
    rw [show ("Error: IndexError: " : String) = "Error: " ++ "IndexError: " from rfl,
      String.append_assoc]
  | otherError ty msg =>
    refine ⟨ty ++ ": " ++ msg, ?_⟩
    simp [handleError, String.append_assoc]

/-- Witness for C4: a successfully fetched entry with `alternate = []` makes
the formatter raise `IndexError`, which the dispatcher renders as an
"Error: ..." string; a valid singleton ID list reaches the tool body and the
runtime receives the body's string. -/
theorem dispatcher_error_boundary_c4_witness :
    entryUrl entryEmptyAlt = Except.error (PyExn.indexError "list index out of range") ∧
    feedlyGetEntry ResponseFormat.markdown (Except.ok [entryEmptyAlt]) =
      handleError (PyExn.indexError "list index out of range") ∧
    markAsReadInputValid ["a"] = true ∧
    markAsReadInvocation ["a"] (Except.ok ()) =
      ToolInvocationResult.reply (feedlyMarkAsRead ["a"] (Except.ok ())) :=
  ⟨rfl,
    (dispatcher_error_boundary_c4 PyExn.timeoutException ResponseFormat.markdown []
        "" "" none).1 entryEmptyAlt [] _ rfl,
    by decide,
    (dispatcher_error_boundary_c4 PyExn.timeoutException ResponseFormat.markdown []
        "" "" none).2.2.2.1 ["a"] (Except.ok ()) (by decide)⟩

/-- C9: for each entry-ID-list tool, an empty `entry_ids` list and a list of
1001 or more IDs are rejected by input validation and trigger no outbound
network call, while lists of 1 to 1000 IDs are accepted. -/
theorem entry_id_bounds_c9 (entryIds : List String) :
    (entryIds.length = 0 →
      markAsReadInputValid entryIds = false ∧ keepUnreadInputValid entryIds = false ∧
      getEntriesInputValid entryIds = false ∧ markAsReadNetworkCalls entryIds = 0 ∧
      keepUnreadNetworkCalls entryIds = 0 ∧ getEntriesNetworkCalls entryIds = 0) ∧
    (1001 ≤ entryIds.length →
      markAsReadInputValid entryIds = false ∧ keepUnreadInputValid entryIds = false ∧
      getEntriesInputValid entryIds = false ∧ markAsReadNetworkCalls entryIds = 0 ∧
      keepUnreadNetworkCalls entryIds = 0 ∧ getEntriesNetworkCalls entryIds = 0) ∧
    (1 ≤ entryIds.length → entryIds.length ≤ 1000 →
      markAsReadInputValid entryIds = true ∧ keepUnreadInputValid entryIds = true ∧
      getEntriesInputValid entryIds = true) := by
  have hv : ∀ b : Bool, validEntryIdList entryIds = b →
      markAsReadInputValid entryIds = b ∧ keepUnreadInputValid entryIds = b ∧
      getEntriesInputValid entryIds = b := by
    intro b hb
    exact ⟨hb, hb, hb⟩
  refine ⟨?_, ?_, ?_⟩
  · intro h
    have hb : validEntryIdList entryIds = false := by
      simp [validEntryIdList, h]
    obtain ⟨h1, h2, h3⟩ := hv false hb
    refine ⟨h1, h2, h3, ?_, ?_, ?_⟩ <;>
      simp [markAsReadNetworkCalls, keepUnreadNetworkCalls, getEntriesNetworkCalls,
        h1, h2, h3]
  · intro h
    have hb : validEntryIdList entryIds = false := by
      simp only [validEntryIdList, Bool.and_eq_false_iff, decide_eq_false_iff_not]
      right
      omega
    obtain ⟨h1, h2, h3⟩ := hv false hb
    refine ⟨h1, h2, h3, ?_, ?_, ?_⟩ <;>
      simp [markAsReadNetworkCalls, keepUnreadNetworkCalls, getEntriesNetworkCalls,
        h1, h2, h3]
  · intro h1 h2
    exact hv true (by simp [validEntryIdList]; omega)

/-- Witness for C9: the empty list and a 1001-element list are rejected with
zero network calls; a singleton list is accepted. -/
theorem entry_id_bounds_c9_witness :
    (([] : List String).length = 0 ∧ markAsReadInputValid [] = false ∧
      markAsReadNetworkCalls [] = 0 ∧ keepUnreadNetworkCalls [] = 0 ∧
      getEntriesNetworkCalls [] = 0) ∧
    (1001 ≤ (List.replicate 1001 "x").length ∧
      markAsReadInputValid (List.replicate 1001 "x") = false ∧
      markAsReadNetworkCalls (List.replicate 1001 "x") = 0) ∧
    (1 ≤ (["a"] : List String).length ∧ (["a"] : List String).length ≤ 1000 ∧
      markAsReadInputValid ["a"] = true) := by
  have hempty := (entry_id_bounds_c9 []).1 rfl
  have hrep : (List.replicate 1001 "x").length = 1001 := List.length_replicate 1001 "x"
  have hbig := (entry_id_bounds_c9 (List.replicate 1001 "x")).2.1 (by rw [hrep])
  have hone := (entry_id_bounds_c9 ["a"]).2.2 (by decide) (by decide)
  exact ⟨⟨rfl, hempty.1, hempty.2.2.2.1, hempty.2.2.2.2.1, hempty.2.2.2.2.2⟩,
    ⟨by rw [hrep], hbig.1, hbig.2.2.2.1⟩,
    ⟨by decide, by decide, hone.1⟩⟩

/-- C10: when the single-entry fetch's upstream call succeeds with an empty
list, the tool returns exactly "Error: Article not found." (a success outcome,
no exception, no 404); on a nonempty list it formats the first element per the
requested format. -/
theorem single_entry_fetch_c10 (fmt : ResponseFormat) (entry : Entry)
    (rest : List Entry) :
    feedlyGetEntry fmt (Except.ok []) = "Error: Article not found." ∧
    feedlyGetEntry ResponseFormat.json (Except.ok (entry :: rest)) =
      truncateResponse (Json.dumps (entryToJson entry)) ∧
    (∀ out, formatEntryMarkdown entry true = Except.ok out →
      feedlyGetEntry ResponseFormat.markdown (Except.ok (entry :: rest)) =
        truncateResponse out) := by
  refine ⟨rfl, rfl, ?_⟩
  intro out h
  simp [feedlyGetEntry, h]

/-- Witness for C10: a concrete entry whose markdown rendering succeeds, so the
tool returns its truncated rendering. -/
theorem single_entry_fetch_c10_witness :
    formatEntryMarkdown entryTier2 true =
      Except.ok (pyJoin "\n" (entryHeaderLines entryTier2 "" ++ ["\n**Content:**\nC"])) ∧
    feedlyGetEntry ResponseFormat.markdown (Except.ok [entryTier2]) =
      truncateResponse
        (pyJoin "\n" (entryHeaderLines entryTier2 "" ++ ["\n**Content:**\nC"])) :=
  ⟨rfl, (single_entry_fetch_c10 ResponseFormat.markdown entryTier2 []).2.2 _ rfl⟩

theorem entryHeaderLines_ne_nil (e : Entry) (url : String) :
    entryHeaderLines e url ≠ [] := by
  unfold entryHeaderLines
  cases h : decide (url = "") <;> simp_all

/-- C6: `_truncate_text` leaves text of at most 300 characters unchanged and
cuts longer text to its first 297 characters plus an ellipsis; the truncated
form is used only by the short-form summary line of an entry block, while the
full-content line (emitted when content inclusion is requested and content is
nonempty) carries the content untruncated. -/
theorem summary_truncation_c6 :
    (∀ t : String, t.length ≤ 300 → truncateText (some t) 300 = t) ∧
    (∀ t : String, 300 < t.length → truncateText (some t) 300 = pyTake t 297 ++ "...") ∧
    (∀ (e : Entry) (out : String), formatEntryMarkdown e true = Except.ok out →
      getArticleContent e ≠ "" →
      ∃ p, out = p ++ ("\n**Content:**\n" ++ getArticleContent e)) ∧
    (∀ (e : Entry) (out : String), formatEntryMarkdown e false = Except.ok out →
      truncateText (some (getArticleContent e)) 300 ≠ "" →
      ∃ p, out = p ++ ("\n**Summary:** " ++ truncateText (some (getArticleContent e)) 300)) := by
  refine ⟨?_, ?_, ?_, ?_⟩
  · intro t h
    simp [truncateText, h]
  · intro t h
    simp [truncateText, Nat.not_le.mpr h]
  · intro e out hfmt hc
    cases hu : entryUrl e with
    | error ex => simp [formatEntryMarkdown, hu] at hfmt
    | ok url =>
      simp only [formatEntryMarkdown, hu, true_and, ne_eq, hc, not_false_eq_true,
        if_true, Except.ok.injEq] at hfmt
      refine ⟨pyJoin "\n" (entryHeaderLines e url) ++ "\n", ?_⟩
      rw [← hfmt, pyJoin_append_singleton _ _ _ (entryHeaderLines_ne_nil e url),
        String.append_assoc]
  · intro e out hfmt hs
    cases hu : entryUrl e with
    | error ex => simp [formatEntryMarkdown, hu] at hfmt
    | ok url =>
      simp only [formatEntryMarkdown, hu, Bool.false_eq_true, false_and, if_false,
        ne_eq, hs, not_false_eq_true, if_true, Except.ok.injEq] at hfmt
      refine ⟨pyJoin "\n" (entryHeaderLines e url) ++ "\n", ?_⟩
      rw [← hfmt, pyJoin_append_singleton _ _ _ (entryHeaderLines_ne_nil e url),
        String.append_assoc]

/-- Witness for C6: a 3-character text is left unchanged, a 301-character text
is cut to 297 characters plus an ellipsis, and a concrete entry renders its
content untruncated when requested and its summary line otherwise. -/
theorem summary_truncation_c6_witness :
    (("abc" : String).length ≤ 300 ∧ truncateText (some "abc") 300 = "abc") ∧
    (300 < (String.mk (List.replicate 301 'a')).length ∧
      truncateText (some (String.mk (List.replicate 301 'a'))) 300 =
        pyTake (String.mk (List.replicate 301 'a')) 297 ++ "...") ∧
    (formatEntryMarkdown entryTier1 true =
        Except.ok (pyJoin "\n" (entryHeaderLines entryTier1 "" ++ ["\n**Content:**\nF"])) ∧
      getArticleContent entryTier1 ≠ "" ∧
      ∃ p, pyJoin "\n" (entryHeaderLines entryTier1 "" ++ ["\n**Content:**\nF"]) =
        p ++ ("\n**Content:**\n" ++ getArticleContent entryTier1)) ∧
    (formatEntryMarkdown entryTier1 false =
        Except.ok (pyJoin "\n" (entryHeaderLines entryTier1 "" ++ ["\n**Summary:** F"])) ∧
      truncateText (some (getArticleContent entryTier1)) 300 ≠ "" ∧
      ∃ p, pyJoin "\n" (entryHeaderLines entryTier1 "" ++ ["\n**Summary:** F"]) =
        p ++ ("\n**Summary:** " ++ truncateText (some (getArticleContent entryTier1)) 300)) := by
  have h301 : 300 < (String.mk (List.replicate 301 'a')).length := by
    show 300 < (List.replicate 301 'a').length
    rw [List.length_replicate]
    omega
  refine ⟨⟨by decide, summary_truncation_c6.1 "abc" (by decide)⟩,
    ⟨h301, summary_truncation_c6.2.1 (String.mk (List.replicate 301 'a')) h301⟩,
    ⟨rfl, by decide, summary_truncation_c6.2.2.1 entryTier1 _ rfl (by decide)⟩,
    ⟨rfl, by decide, summary_truncation_c6.2.2.2 entryTier1 _ rfl (by decide)⟩⟩

theorem insertByCountDesc_perm (x : UnreadCount) (l : List UnreadCount) :
    List.Perm (insertByCountDesc x l) (x :: l) := by
  induction l with
  | nil => exact List.Perm.refl _
  | cons y ys ih =>
    by_cases h : x.key < y.key
    · simp only [insertByCountDesc, if_pos h]
      exact (ih.cons y).trans (List.Perm.swap x y ys)
    · simp only [insertByCountDesc, if_neg h]
      exact List.Perm.refl _

theorem insertByCountDesc_pairwise (x : UnreadCount) (l : List UnreadCount)
    (h : List.Pairwise (fun a b => b.key ≤ a.key) l) :
    List.Pairwise (fun a b => b.key ≤ a.key) (insertByCountDesc x l) := by
  induction l with
  | nil => simp [insertByCountDesc]
  | cons y ys ih =>
    rw [List.pairwise_cons] at h
    by_cases hxy : x.key < y.key
    · simp only [insertByCountDesc, if_pos hxy]
      rw [List.pairwise_cons]
      refine ⟨?_, ih h.2⟩
      intro z hz
      rcases List.mem_cons.mp ((insertByCountDesc_perm x ys).mem_iff.mp hz) with rfl | hz'
      · exact le_of_lt hxy
      · exact h.1 z hz'
    · simp only [insertByCountDesc, if_neg hxy]
      rw [List.pairwise_cons]
      refine ⟨?_, ?_⟩
      · intro z hz
        rcases List.mem_cons.mp hz with rfl | hz'
        · exact not_lt.mp hxy
        · exact le_trans (h.1 z hz') (not_lt.mp hxy)
      · rw [List.pairwise_cons]
        exact h

theorem filter_insertByCountDesc (c : Int) (x : UnreadCount) (l : List UnreadCount) :
    (insertByCountDesc x l).filter (fun z => decide (z.key = c)) =
      (x :: l).filter (fun z => decide (z.key = c)) := by
  induction l with
  | nil => rfl
  | cons y ys ih =>
    by_cases hxy : x.key < y.key
    · have hx : ¬ x.key = c ∨ ¬ y.key = c := by
        by_cases hy : y.key = c
        · left
          omega
        · right
          exact hy
      simp only [insertByCountDesc, if_pos hxy, List.filter_cons, ih]
      rcases hx with hx | hy
      · simp [hx]
      · simp [hy]
    · simp only [insertByCountDesc, if_neg hxy]

theorem sortByCountDesc_perm (l : List UnreadCount) :
    List.Perm (sortByCountDesc l) l := by
  induction l with
  | nil => exact List.Perm.refl _
  | cons x xs ih => exact (insertByCountDesc_perm x (sortByCountDesc xs)).trans (ih.cons x)

theorem sortByCountDesc_pairwise (l : List UnreadCount) :
    List.Pairwise (fun a b => b.key ≤ a.key) (sortByCountDesc l) := by
  induction l with
  | nil => exact List.Pairwise.nil
  | cons x xs ih => exact insertByCountDesc_pairwise x (sortByCountDesc xs) ih

theorem sortByCountDesc_filter (c : Int) (l : List UnreadCount) :
    (sortByCountDesc l).filter (fun z => decide (z.key = c)) =
      l.filter (fun z => decide (z.key = c)) := by
  induction l with
  | nil => rfl
  | cons x xs ih =>
    rw [show sortByCountDesc (x :: xs) = insertByCountDesc x (sortByCountDesc xs) from rfl,
      filter_insertByCountDesc]
    simp only [List.filter_cons, ih]

/-- C7: the unread-counts markdown rendering lists the records in the order
produced by the stable sort by count descending: the sorted list is a
permutation of the input, pairwise descending in count, preserves the original
relative order of records with equal counts, maps input counts [3, 10, 1] to
output order [10, 3, 1], and each record's ID line carries its stream
identifier verbatim. -/
theorem unread_sort_c7 (l : List UnreadCount) (c : Int) (item x : UnreadCount)
    (xs : List UnreadCount) :
    List.Perm (sortByCountDesc l) l ∧
    List.Pairwise (fun a b => b.key ≤ a.key) (sortByCountDesc l) ∧
    (sortByCountDesc l).filter (fun z => decide (z.key = c)) =
      l.filter (fun z => decide (z.key = c)) ∧
    sortByCountDesc
        [⟨some "a", some 3, none⟩, ⟨some "b", some 10, none⟩, ⟨some "c", some 1, none⟩] =
      [⟨some "b", some 10, none⟩, ⟨some "a", some 3, none⟩, ⟨some "c", some 1, none⟩] ∧
    formatUnreadCountsMarkdown ⟨x :: xs⟩ =
      pyJoin "\n" ("## Unread Counts\n" ::
        (sortByCountDesc (x :: xs)).flatMap unreadCountLines) ∧
    (unreadCountLines item).getLast? = some ("  - ID: `" ++ item.id.getD "" ++ "`") :=
  ⟨sortByCountDesc_perm l, sortByCountDesc_pairwise l, sortByCountDesc_filter c l,
    by decide, by simp [formatUnreadCountsMarkdown], rfl⟩

/-- A one-element subscriptions payload used to exhibit the shape of the
subscriptions tool's JSON output. -/
def subsSample : List Json := [Json.obj [("title", Json.str "Feed A")]]

/-- Counterexample for C2: the subscriptions tool in JSON mode returns the raw
payload re-serialized as a JSON array; parsing it back yields a value with no
`count` field at all, so reading `count` cannot equal the item count (1). -/
theorem listing_count_c2_counterexample :
    feedlyGetSubscriptions ResponseFormat.json (Except.ok subsSample) =
      Json.dumps (Json.arr subsSample) ∧
    jsonLookup "count" (Json.arr subsSample) = none ∧
    ∀ j, jsonLookup "count" (Json.arr subsSample) ≠ some j := by
  refine ⟨?_, rfl, ?_⟩
  · show truncateResponse (Json.dumps (Json.arr subsSample)) = _
    rw [truncateResponse, if_pos (by decide)]
  · intro j h
    exact Option.noConfusion h

/-- C2 (amended): only the stream-contents tool wraps its JSON output in the
`count`/`items` envelope; there, `count` equals the number of elements of
`items`, the tool returns the dumped envelope routed through the cap, and
whenever the dump fits the 25,000-character budget the returned string is the
dump verbatim — so parsing it and reading `count` yields exactly the item
count (a dump over the budget is truncated and is no longer valid JSON).  The
other listing tools — subscriptions, categories, and tags — re-serialize the
raw payload list directly; a parsed JSON array has no `count` field. -/
theorem stream_count_envelope_c2 (items : List Entry) (continuation : Option String)
    (subs cats tags : List Json) :
    jsonLookup "count" (streamContentsJson items continuation) =
      some (Json.num (items.length : Int)) ∧
    (∃ l, jsonLookup "items" (streamContentsJson items continuation) =
        some (Json.arr l) ∧ l.length = items.length) ∧
    feedlyGetStreamContents ResponseFormat.json (Except.ok ⟨items, continuation⟩) =
      truncateResponse (Json.dumps (streamContentsJson items continuation)) ∧
    ((Json.dumps (streamContentsJson items continuation)).length ≤ 25000 →
      feedlyGetStreamContents ResponseFormat.json (Except.ok ⟨items, continuation⟩) =
        Json.dumps (streamContentsJson items continuation)) ∧
    feedlyGetSubscriptions ResponseFormat.json (Except.ok subs) =
      truncateResponse (Json.dumps (Json.arr subs)) ∧
    feedlyGetCategories ResponseFormat.json (Except.ok cats) =
      truncateResponse (Json.dumps (Json.arr cats)) ∧
    feedlyGetTags ResponseFormat.json (Except.ok tags) =
      truncateResponse (Json.dumps (Json.arr tags)) ∧
    (∀ l : List Json, jsonLookup "count" (Json.arr l) = none) := by
  refine ⟨rfl, ⟨items.map entryToJson, rfl, List.length_map items entryToJson⟩, rfl,
    ?_, rfl, rfl, rfl, fun l => rfl⟩
  intro h
  show truncateResponse (Json.dumps (streamContentsJson items continuation)) = _
  rw [truncateResponse]
  exact if_pos h

/-- Witness for C2: the empty stream payload dumps to a short envelope, so the
tool returns it verbatim and its `count` field reads back 0. -/
theorem stream_count_envelope_c2_witness :
    (Json.dumps (streamContentsJson [] none)).length ≤ 25000 ∧
    feedlyGetStreamContents ResponseFormat.json (Except.ok ⟨[], none⟩) =
      Json.dumps (streamContentsJson [] none) ∧
    jsonLookup "count" (streamContentsJson [] none) = some (Json.num 0) := by
  have h : (Json.dumps (streamContentsJson [] none)).length ≤ 25000 := by decide
  exact ⟨h, (stream_count_envelope_c2 [] none [] [] []).2.2.2.1 h,
    (stream_count_envelope_c2 [] none [] [] []).1⟩

theorem truncateResponse_length_le (s : String) : (truncateResponse s).length ≤ 25000 := by
  rw [truncateResponse]
  by_cases h : s.length ≤ CHARACTER_LIMIT
  · rw [if_pos h]
    exact h
  · rw [if_neg h, String.length_append, pyTake_length]
    have hn : truncationNotice.length = 46 := by decide
    rw [hn]
    show min (CHARACTER_LIMIT - 50) s.length + 46 ≤ 25000
    have : CHARACTER_LIMIT = 25000 := rfl
    omega

theorem entryUrl_error_eq (e : Entry) (ex : PyExn)
    (h : entryUrl e = Except.error ex) :
    ex = PyExn.indexError "list index out of range" := by
  unfold entryUrl at h
  cases halt : e.alternate with
  | none =>
    rw [halt] at h
    simp at h
  | some ls =>
    cases ls with
    | nil =>
      rw [halt] at h
      simp at h
      exact h.symm
    | cons l ls' =>
      rw [halt] at h
      simp at h

theorem formatEntryMarkdown_error_eq (e : Entry) (b : Bool) (ex : PyExn)
    (h : formatEntryMarkdown e b = Except.error ex) :
    ex = PyExn.indexError "list index out of range" := by
  unfold formatEntryMarkdown at h
  cases hu : entryUrl e with
  | error ex' =>
    rw [hu] at h
    simp at h
    rw [← h]
    exact entryUrl_error_eq e ex' hu
  | ok url =>
    rw [hu] at h
    simp at h

theorem mapFormatEntries_error_eq (b : Bool) (es : List Entry) (ex : PyExn)
    (h : mapFormatEntries b es = Except.error ex) :
    ex = PyExn.indexError "list index out of range" := by
  induction es with
  | nil => simp [mapFormatEntries] at h
  | cons e es ih =>
    unfold mapFormatEntries at h
    cases hf : formatEntryMarkdown e b with
    | error ex' =>
      rw [hf] at h
      simp at h
      rw [← h]
      exact formatEntryMarkdown_error_eq e b ex' hf
    | ok block =>
      rw [hf] at h
      cases hm : mapFormatEntries b es with
      | error ex' =>
        rw [hm] at h
        simp at h
        rw [h] at hm
        exact ih hm
      | ok rest =>
        rw [hm] at h
        simp at h

theorem formatEntriesMarkdown_error_eq (es : List Entry) (b : Bool) (ex : PyExn)
    (h : formatEntriesMarkdown es b = Except.error ex) :
    ex = PyExn.indexError "list index out of range" := by
  unfold formatEntriesMarkdown at h
  by_cases he : es = []
  · rw [if_pos he] at h
    simp at h
  · rw [if_neg he] at h
    cases hm : mapFormatEntries b es with
    | error ex' =>
      rw [hm] at h
      simp at h
      rw [← h]
      exact mapFormatEntries_error_eq b es ex' hm
    | ok blocks =>
      rw [hm] at h
      simp at h

theorem formatStreamContents_error_eq (data : StreamData) (ex : PyExn)
    (h : formatStreamContents data ResponseFormat.markdown = Except.error ex) :
    ex = PyExn.indexError "list index out of range" := by
  unfold formatStreamContents at h
  cases hb : formatEntriesMarkdown data.items false with
  | error ex' =>
    rw [hb] at h
    simp [Except.bind] at h
    rw [← h]
    exact formatEntriesMarkdown_error_eq data.items false ex' hb
  | ok body =>
    rw [hb] at h
    simp [Except.bind] at h

theorem feedlyGetProfile_ok_le (fmt : ResponseFormat) (profile : Json) :
    (feedlyGetProfile fmt (Except.ok profile)).length ≤ 25000 := by
  cases fmt
  · exact truncateResponse_length_le _
  · exact truncateResponse_length_le _

theorem feedlyGetSubscriptions_ok_le (fmt : ResponseFormat) (subs : List Json) :
    (feedlyGetSubscriptions fmt (Except.ok subs)).length ≤ 25000 := by
  cases fmt
  · exact truncateResponse_length_le _
  · exact truncateResponse_length_le _

theorem feedlyGetCategories_ok_le (fmt : ResponseFormat) (cats : List Json) :
    (feedlyGetCategories fmt (Except.ok cats)).length ≤ 25000 := by
  cases fmt
  · exact truncateResponse_length_le _
  · exact truncateResponse_length_le _

theorem feedlyGetTags_ok_le (fmt : ResponseFormat) (tags : List Json) :
    (feedlyGetTags fmt (Except.ok tags)).length ≤ 25000 := by
  cases fmt
  · exact truncateResponse_length_le _
  · exact truncateResponse_length_le _

theorem feedlyGetUnreadCounts_ok_le (fmt : ResponseFormat)
    (counts : Json × UnreadData) :
    (feedlyGetUnreadCounts fmt (Except.ok counts)).length ≤ 25000 := by
  cases fmt
  · exact truncateResponse_length_le _
  · exact truncateResponse_length_le _

theorem feedlyGetStreamContents_ok_le (fmt : ResponseFormat) (data : StreamData) :
    (feedlyGetStreamContents fmt (Except.ok data)).length ≤ 25000 := by
  cases fmt with
  | json => exact truncateResponse_length_le _
  | markdown =>
    cases h : formatStreamContents data ResponseFormat.markdown with
    | ok str =>
      simp [feedlyGetStreamContents, h]
      exact truncateResponse_length_le str
    | error ex =>
      simp [feedlyGetStreamContents, h]
      rw [formatStreamContents_error_eq data ex h]
      decide

theorem feedlyGetEntry_ok_le (fmt : ResponseFormat) (entries : List Entry) :
    (feedlyGetEntry fmt (Except.ok entries)).length ≤ 25000 := by
  cases entries with
  | nil =>
    show ("Error: Article not found." : String).length ≤ 25000
    decide
  | cons e rest =>
    cases fmt with
    | json => exact truncateResponse_length_le _
    | markdown =>
      cases h : formatEntryMarkdown e true with
      | ok str =>
        simp [feedlyGetEntry, h]
        exact truncateResponse_length_le str
      | error ex =>
        simp [feedlyGetEntry, h]
        rw [formatEntryMarkdown_error_eq e true ex h]
        decide

theorem feedlyGetEntries_ok_le (fmt : ResponseFormat) (entries : List Entry) :
    (feedlyGetEntries fmt (Except.ok entries)).length ≤ 25000 := by
  cases fmt with
  | json => exact truncateResponse_length_le _
  | markdown =>
    cases h : formatEntriesMarkdown entries true with
    | ok str =>
      simp [feedlyGetEntries, h]
      exact truncateResponse_length_le str
    | error ex =>
      simp [feedlyGetEntries, h]
      rw [formatEntriesMarkdown_error_eq entries true ex h]
      decide

/-- Counterexample for C1: a valid invocation of the mark-feed-as-read tool
with a 25000-character feed ID succeeds with a confirmation string longer than
25,000 characters — the cap is not applied to that tool's output. -/
theorem output_cap_c1_counterexample :
    25000 <
      (feedlyMarkFeedAsRead (String.mk (List.replicate 25000 'a')) none
        (Except.ok ())).length := by
  have h : feedlyMarkFeedAsRead (String.mk (List.replicate 25000 'a')) none
      (Except.ok ()) =
      "Successfully marked feed as read: " ++ String.mk (List.replicate 25000 'a') := rfl
  have hlen : (String.mk (List.replicate 25000 'a')).length = 25000 := by
    show (List.replicate 25000 'a').length = 25000
    rw [List.length_replicate]
  have hpre : ("Successfully marked feed as read: " : String).length = 34 := by decide
  rw [h, String.length_append, hlen, hpre]
  omega

/-- C1 (amended): `_truncate_response` bounds its result by 25,000 characters,
and when the content exceeds the budget the result is the first
25,000 − 50 = 24,950 characters followed by the exact truncation notice (total
length 24,950 plus the notice length).  Every read tool's success output is at
most 25,000 characters: the formatted output is routed through
`_truncate_response`, and the one read-tool success return outside the cap —
`feedly_get_entry`'s fixed "Error: Article not found." on an empty list — is
25 characters.  Error strings from `_handle_error` and the write tools'
confirmation strings are returned without the cap and can exceed the budget. -/
theorem output_cap_c1 (s : String) (fmt : ResponseFormat) (profile : Json)
    (subs cats tags : List Json) (counts : Json × UnreadData) (data : StreamData)
    (entries : List Entry) :
    (truncateResponse s).length ≤ 25000 ∧
    (25000 < s.length →
      truncateResponse s = pyTake s 24950 ++ truncationNotice ∧
      (truncateResponse s).length = 24950 + truncationNotice.length) ∧
    (feedlyGetProfile fmt (Except.ok profile)).length ≤ 25000 ∧
    (feedlyGetSubscriptions fmt (Except.ok subs)).length ≤ 25000 ∧
    (feedlyGetCategories fmt (Except.ok cats)).length ≤ 25000 ∧
    (feedlyGetTags fmt (Except.ok tags)).length ≤ 25000 ∧
    (feedlyGetUnreadCounts fmt (Except.ok counts)).length ≤ 25000 ∧
    (feedlyGetStreamContents fmt (Except.ok data)).length ≤ 25000 ∧
    (feedlyGetEntry fmt (Except.ok entries)).length ≤ 25000 ∧
    (feedlyGetEntries fmt (Except.ok entries)).length ≤ 25000 := by
  refine ⟨truncateResponse_length_le s, ?_, feedlyGetProfile_ok_le fmt profile,
    feedlyGetSubscriptions_ok_le fmt subs, feedlyGetCategories_ok_le fmt cats,
    feedlyGetTags_ok_le fmt tags, feedlyGetUnreadCounts_ok_le fmt counts,
    feedlyGetStreamContents_ok_le fmt data, feedlyGetEntry_ok_le fmt entries,
    feedlyGetEntries_ok_le fmt entries⟩
  intro h
  have hcond : ¬ s.length ≤ CHARACTER_LIMIT := by
    show ¬ s.length ≤ 25000
    omega
  constructor
  · rw [truncateResponse, if_neg hcond]
    rfl
  · rw [truncateResponse, if_neg hcond, String.length_append, pyTake_length]
    show min (CHARACTER_LIMIT - 50) s.length + _ = _
    have : CHARACTER_LIMIT = 25000 := rfl
    omega

/-- Witness for C1: a 25001-character string exceeds the budget and is
truncated to the 24,950-character prefix plus the notice. -/
theorem output_cap_c1_witness :
    25000 < (String.mk (List.replicate 25001 'a')).length ∧
    truncateResponse (String.mk (List.replicate 25001 'a')) =
      pyTake (String.mk (List.replicate 25001 'a')) 24950 ++ truncationNotice ∧
    (truncateResponse (String.mk (List.replicate 25001 'a'))).length =
      24950 + truncationNotice.length := by
  have h : 25000 < (String.mk (List.replicate 25001 'a')).length := by
    show 25000 < (List.replicate 25001 'a').length
    rw [List.length_replicate]
    omega
  have hmain :=
    (output_cap_c1 (String.mk (List.replicate 25001 'a')) ResponseFormat.markdown
      Json.null [] [] [] (Json.null, ⟨[]⟩) ⟨[], none⟩ []).2.1 h
  exact ⟨h, hmain.1, hmain.2⟩
